/-
Verification of the boysnoise TTS application (src/app.py) against its
natural-language specification.

The application logic lives in `app.py`: a Gradio front end around
  * `get_generated_files`  — lists produced `.wav` artifacts, newest first,
  * `convert_audio`        — normalizes reference audio via ffmpeg,
  * `delete_file`          — path-traversal-guarded deletion,
  * `generate_tts`         — the orchestrator: validation, optional
    conversion, tts subprocess invocation, error capture, temp cleanup.

The shallow embedding below models:
  * filesystem paths for the deletion guard as lists of segments
    (absolute, canonical once resolved); `FS` carries regular files, a
    symlink table (targets assumed already canonical), and a set of
    files whose removal fails with a generic OS error;
  * `Path.resolve()` as segment-wise resolution following the symlink
    table and eliminating `..`/`.` segments;
  * the external subprocess behaviour (ffmpeg / tts) as an `Env` value
    describing how each launch terminates; the status log is built as
    the same string concatenation the Python code performs;
  * `try/except/finally` by explicit control flow: the dedicated
    `CalledProcessError` handler and the generic `Exception` handler are
    recorded in the result (`Handler`), and the `finally` cleanup is the
    single exit point of `generate_tts`.
-/
import Mathlib

namespace Boysnoise

/-- An apostrophe character, used in several Python diagnostic strings. -/
def apos : String := "\u0027"

/-! ## Python string primitives used by the code -/

/-- Python `str.endswith`, modelled over the character list. -/
def pyEndsWith (s suf : String) : Bool := suf.data.isSuffixOf s.data

/-- Python `str.lower` (ASCII case folding, as used on file extensions). -/
def pyLower (s : String) : String := String.mk (s.data.map Char.toLower)

/-- Python `str.strip()`: the string without leading and trailing
    whitespace. -/
def pyStrip (s : String) : String :=
  String.mk (((s.data.dropWhile Char.isWhitespace).reverse.dropWhile
    Char.isWhitespace).reverse)

/-- Python `repr` of a string: surrounded by apostrophes (escaping ignored,
    the modelled strings contain none). -/
def pyStrRepr (s : String) : String := apos ++ s ++ apos

/-- Python `repr` of a list of strings, as it appears in
    `str(subprocess.TimeoutExpired)` for a command list. -/
def pyListRepr (l : List String) : String :=
  "[" ++ String.intercalate ", " (l.map pyStrRepr) ++ "]"

/-! ## Path model for `delete_file` (src/app.py:177-193)

An absolute filesystem path is a list of segments; `[]` is the root `/`.
-/

/-- Filesystem state seen by `delete_file`: the regular files present, a
    symlink table (link path to absolute target, targets assumed already
    canonical), and files on which `unlink` fails with a generic
    `OSError` (e.g. permission denied). -/
structure FS where
  files : List (List String)
  symlinks : List (List String × List String)
  failing : List (List String)
deriving DecidableEq

/-- Look up the symlink table. -/
def lookupLink (fs : FS) (p : List String) : Option (List String) :=
  (fs.symlinks.find? (fun e => e.1 == p)).map (fun e => e.2)

/-- Segment-wise path resolution: `..` removes the last resolved segment,
    `.` is skipped, and a segment landing on a symlink continues from the
    link target.  This models `pathlib.Path.resolve()` (non-strict: a
    non-existent path resolves as far as the segments allow). -/
def resolveFrom (fs : FS) : List String → List String → List String
  | acc, [] => acc
  | acc, seg :: rest =>
    if seg = ".." then resolveFrom fs acc.dropLast rest
    else if seg = "." then resolveFrom fs acc rest
    else
      match lookupLink fs (acc ++ [seg]) with
      | some tgt => resolveFrom fs tgt rest
      | none => resolveFrom fs (acc ++ [seg]) rest

/-- Model of `Path(p).resolve()` for an absolute path `p`. -/
def resolvePath (fs : FS) (p : List String) : List String := resolveFrom fs [] p

/-- Model of `pathlib.Path.parents`: every strict ancestor of the path
    (the root `[]` included, the path itself excluded). -/
def parentsOf (c : List String) : List (List String) :=
  (List.range c.length).map (fun k => c.take k)

/-- Model of `Path.name`: the final path segment. -/
def lastName (p : List String) : String := p.getLastD ""

/-- The configured `output_dir = Path("generierte_stimmen")` (src/app.py
    line 119), relative to the process working directory, which the model
    takes as the filesystem root. -/
def output_dir : List String := ["generierte_stimmen"]

/-- The exception caught by the first `except` clause of `delete_file`:
    either the `FileNotFoundError` of `unlink` on a missing file or the
    `SecurityException` raised by the guard. -/
inductive DelExn
  | fileNotFound
  | securityViolation
deriving DecidableEq

/-- Outcome of `delete_file`, abstracting the returned status message. -/
inductive DelOutcome
  | nothingSelected
  | success (name : String)
  | caughtError (e : DelExn)
  | unexpectedError
deriving DecidableEq

/-- Function `delete_file` (src/app.py:177-193): refuse an empty selection; resolve
    the candidate; raise `SecurityException` unless the resolved output
    root is among the resolved candidate `parents` list; then `unlink`,
    mapping a missing file to the caught `FileNotFoundError` and any
    other filesystem failure to the generic handler. -/
def delete_file (fs : FS) (p : Option (List String)) : FS × DelOutcome :=
  match p with
  | none => (fs, .nothingSelected)
  | some segs =>
    if segs.isEmpty then (fs, .nothingSelected)
    else
      let safe := resolvePath fs segs
      let rootR := resolvePath fs output_dir
      if rootR ∈ parentsOf safe then
        if safe ∈ fs.files then
          if safe ∈ fs.failing then (fs, .unexpectedError)
          else ({ fs with files := fs.files.filter (fun f => f != safe) },
                .success (lastName safe))
        else (fs, .caughtError .fileNotFound)
      else (fs, .caughtError .securityViolation)

/-! ## `get_generated_files` (src/app.py:134-147) -/

/-- State of the output directory as seen by `glob`: absent, unreadable,
    or a list of entries `(name, mtime)` in enumeration order. -/
inductive DirState
  | missing
  | unreadable
  | present (entries : List (String × Nat))

/-- Stable insertion preserving the descending-mtime order: the new
    element goes before the first strictly older entry, after entries of
    equal mtime that were enumerated earlier.  Together with
    `pyStableSortDesc` this is extensionally the stable Python
    `list.sort(key=mtime, reverse=True)`. -/
def insertDescLe (x : String × Nat) : List (String × Nat) → List (String × Nat)
  | [] => [x]
  | y :: ys => if y.2 ≤ x.2 then x :: y :: ys else y :: insertDescLe x ys

/-- Stable sort by modification time, newest first. -/
def pyStableSortDesc : List (String × Nat) → List (String × Nat)
  | [] => []
  | x :: xs => insertDescLe x (pyStableSortDesc xs)

/-- The entries kept by `output_dir.glob("*.wav")`. -/
def wavEntries (es : List (String × Nat)) : List (String × Nat) :=
  es.filter (fun e => pyEndsWith e.1 ".wav")

/-- The sorted `.wav` file list of `get_generated_files`.  The scan never
    raises: CPython's `pathlib` wraps the wildcard scan in
    `except PermissionError: return` (bpo-24120, since Python 3.6), so an
    unreadable directory globs as empty, and a missing directory yields an
    empty iterator via the `is_dir` check (were a `FileNotFoundError`
    raised instead, the `except FileNotFoundError` clause of the source
    would produce the same empty list).  The `Except` return type keeps
    the error channel of the `try` block visible: no branch uses it. -/
def listWavFiles : DirState → Except String (List (String × Nat))
  | .missing => .ok []
  | .unreadable => .ok []
  | .present es => .ok (pyStableSortDesc (wavEntries es))

/-- Function `get_generated_files` (src/app.py:134-147): the
    `(f.name, str(f))` choice pairs derived from the sorted file list. -/
def get_generated_files (d : DirState) : Except String (List (String × String)) :=
  (listWavFiles d).map (fun files =>
    files.map (fun f => (f.1, "generierte_stimmen/" ++ f.1)))

/-! ## Subprocess environment and `convert_audio` (src/app.py:149-172) -/

/-- How one external process launch terminates: normal exit 0 with the
    captured streams, non-zero exit (`CalledProcessError`), timeout
    (`TimeoutExpired`), missing executable (`FileNotFoundError`), or any
    other launch failure. -/
inductive ProcResult
  | ok (stdout stderr : String)
  | exitError (rc : Int) (stdout stderr : String)
  | timeout
  | execMissing
  | otherFailure (msg : String)
deriving DecidableEq

/-- External behaviour for one request: the outcome of the ffmpeg launch,
    the outcome of the tts launch, whether the engine actually wrote the
    output artifact when it exited 0, and the `time.strftime`
    `"%Y%m%d-%H%M%S"` string of the request instant (one-second
    resolution). -/
structure Env where
  ffmpegResult : ProcResult
  ttsResult : ProcResult
  ttsWritesOutput : Bool
  timestamp : String

/-- Exceptions that can reach the handlers of `generate_tts` (its
    dedicated `subprocess.CalledProcessError` branch is modelled directly
    at the call site, everything here lands in `except Exception`). -/
inductive GenExn
  | fileNotFoundError (msg : String)
  | timeoutErrorE (msg : String)
  | runtimeError (msg : String)
  | timeoutExpired (cmd : List String) (secs : Nat)
  | otherExn (msg : String)
deriving DecidableEq

/-- Python `str(e)` for the exceptions above. -/
def exnStr : GenExn → String
  | .fileNotFoundError m => m
  | .timeoutErrorE m => m
  | .runtimeError m => m
  | .timeoutExpired cmd secs =>
    "Command " ++ apos ++ pyListRepr cmd ++ apos ++ " timed out after "
      ++ toString secs ++ " seconds"
  | .otherExn m => m

/-- Value of `tempfile.gettempdir()` in the model. -/
def tempDir : String := "/tmp"

/-- The final component of a path string: the characters after the last
    slash. -/
def lastComponent (s : String) : String :=
  String.mk ((s.data.reverse.takeWhile (fun c => c != '/')).reverse)

/-- Drop the reversed characters up to and including the first `.`
    (i.e. the last `.` of the name); `none` if there is no dot. -/
def dropToDot : List Char → Option (List Char)
  | [] => none
  | c :: cs => if c = '.' then some cs else dropToDot cs

/-- Model of `pathlib.Path.stem` of a file name: the name without its
    final suffix; a name whose only dot leads it keeps the full name. -/
def stemOf (name : String) : String :=
  match dropToDot name.data.reverse with
  | some rest => if rest.isEmpty then name else String.mk rest.reverse
  | none => name

/-- The deterministic temporary path `convert_audio` writes to:
    `tempfile.gettempdir() / (stem + "_converted.wav")`. -/
def converted_path (input_path : String) : String :=
  tempDir ++ "/" ++ stemOf (lastComponent input_path) ++ "_converted.wav"

/-- The ffmpeg argument list built by `convert_audio`. -/
def ffmpegCommand (input_path : String) : List String :=
  ["ffmpeg", "-i", input_path, "-ar", "22050", "-ac", "1",
   converted_path input_path, "-y"]

/-- Diagnostic of the `FileNotFoundError` re-raised by `convert_audio`. -/
def ffmpegMissingMsg : String :=
  "FEHLER: " ++ apos ++ "ffmpeg" ++ apos
    ++ " wurde nicht gefunden. Bitte stellen Sie sicher, dass es installiert ist."

/-- Function `convert_audio` (src/app.py:149-172): on success the external process
    has created exactly the converted file and its path is returned; each
    failure mode re-raises a typed exception and creates no file
    (`FileNotFoundError` for a missing ffmpeg, `TimeoutError` naming the
    process, `RuntimeError` carrying exit code and stderr); any other
    launch failure propagates unchanged. -/
def convert_audio (env : Env) (fs : List String) (input_path process_name : String) :
    List String × Except GenExn String :=
  let cpath := converted_path input_path
  match env.ffmpegResult with
  | .ok _ _ => (cpath :: fs, .ok cpath)
  | .execMissing => (fs, .error (.fileNotFoundError ffmpegMissingMsg))
  | .timeout =>
    (fs, .error (.timeoutErrorE ("FEHLER: " ++ apos ++ process_name ++ apos
      ++ " hat das Zeitlimit √ºberschritten.")))
  | .exitError rc _ err =>
    (fs, .error (.runtimeError ("FEHLER bei der Audiokonvertierung (ffmpeg):\nExit-Code: "
      ++ toString rc ++ "\nFehler: " ++ err)))
  | .otherFailure m => (fs, .error (.otherExn m))

/-! ## `generate_tts` (src/app.py:197-276) -/

/-- The language table `LANG_MAP` (src/app.py:122-127), keys exactly as
    in the source file. -/
def LANG_MAP : List (String × String) :=
  [("Deutsch", "de"), ("Englisch", "en"), ("Spanisch", "es"), ("Franz√∂sisch", "fr"),
   ("Italienisch", "it"), ("Portugiesisch", "pt"), ("Polnisch", "pl"), ("T√ºrkisch", "tr"),
   ("Russisch", "ru"), ("Niederl√§ndisch", "nl"), ("Tschechisch", "cs"), ("Arabisch", "ar"),
   ("Chinesisch", "zh-cn"), ("Japanisch", "ja"), ("Ungarisch", "hu"), ("Koreanisch", "ko")]

/-- Lookup `LANG_MAP.get(language, "de")`. -/
def langLookup (language : String) : String :=
  match LANG_MAP.find? (fun e => e.1 == language) with
  | some e => e.2
  | none => "de"

/-- The tts argument list built by `generate_tts`. -/
def ttsCommand (text speaker lang_idx out_path : String) : List String :=
  ["tts", "--model_name", "tts_models/multilingual/multi-dataset/xtts_v2",
   "--text", text, "--speaker_wav", speaker, "--language_idx", lang_idx,
   "--out_path", out_path]

/-- Text of `str(e)` for the `FileNotFoundError` raised when the tts
    executable is missing. -/
def ttsMissingMsg : String :=
  "[Errno 2] No such file or directory: " ++ apos ++ "tts" ++ apos

/-- Which `except` clause of `generate_tts` handled a failure. -/
inductive Handler
  | calledProcess
  | genericExn
deriving DecidableEq

/-- The status line appended by the generic `except Exception` handler. -/
def genericMsg (e : GenExn) : String :=
  "‚ùå Ein unerwarteter Fehler ist aufgetreten: " ++ exnStr e ++ "\n"

/-- State at the end of the `try` block of `generate_tts` (before
    `finally`): the value to return, the status text so far, the files
    now on disk, the subprocess launches performed, the
    `temp_files_to_clean` list, which handler (if any) ran, and whether
    the block ended in one of the early validation `return`s (whose
    returned status precedes the cleanup messages). -/
structure TryRes where
  audio : Option String
  status : String
  fs : List String
  launches : List (List String)
  temps : List String
  handler : Option Handler
  early : Bool

/-- Model of `os.remove`: removes the file or raises `FileNotFoundError`. -/
def os_remove (fs : List String) (p : String) : Except String (List String) :=
  if p ∈ fs then .ok (fs.filter (fun f => f != p))
  else .error ("[Errno 2] No such file or directory: " ++ apos ++ p ++ apos)

/-- The `finally` block: remove each entry of `temp_files_to_clean`,
    catching the `OSError` of an already-missing file and appending a
    message either way. -/
def cleanupTemps : List String → String → List String → List String × String
  | fs, status, [] => (fs, status)
  | fs, status, t :: rest =>
    match os_remove fs t with
    | .ok fs2 =>
      cleanupTemps fs2 (status ++ "Tempor√§re Datei gel√∂scht: " ++ t ++ "\n") rest
    | .error m =>
      cleanupTemps fs
        (status ++ "Fehler beim L√∂schen der tempor√§ren Datei " ++ t ++ ": " ++ m ++ "\n")
        rest

/-- Steps 3 of `generate_tts`: build and run the tts command, mapping a
    `CalledProcessError` to the dedicated handler and every other launch
    failure to the generic one. -/
def synthPhase (env : Env) (fs : List String) (text language speaker st : String)
    (launches0 : List (List String)) (temps : List String) : TryRes :=
  let lang_idx := langLookup language
  let output_filename := "output_" ++ env.timestamp ++ ".wav"
  let output_path := "generierte_stimmen/" ++ output_filename
  let command := ttsCommand text speaker lang_idx output_path
  let st4 := st ++ "F√ºhre TTS-Befehl aus: " ++ String.intercalate " " command ++ "\n"
  let launches := launches0 ++ [command]
  match env.ttsResult with
  | .ok out err =>
    { audio := some output_path,
      status := st4 ++ "TTS-Prozess erfolgreich abgeschlossen.\n"
        ++ "stdout: " ++ out ++ "\n" ++ "stderr: " ++ err ++ "\n"
        ++ "‚úÖ Sprache erfolgreich generiert: " ++ output_filename ++ "\n",
      fs := if env.ttsWritesOutput then output_path :: fs else fs,
      launches := launches, temps := temps, handler := none, early := false }
  | .exitError rc out err =>
    { audio := none,
      status := st4 ++ "‚ùå Fehler bei der TTS-Generierung:\n"
        ++ "Exit-Code: " ++ toString rc ++ "\n"
        ++ "stdout: " ++ out ++ "\n" ++ "stderr: " ++ err ++ "\n",
      fs := fs, launches := launches, temps := temps,
      handler := some .calledProcess, early := false }
  | .timeout =>
    { audio := none, status := st4 ++ genericMsg (.timeoutExpired command 300),
      fs := fs, launches := launches, temps := temps,
      handler := some .genericExn, early := false }
  | .execMissing =>
    { audio := none, status := st4 ++ genericMsg (.fileNotFoundError ttsMissingMsg),
      fs := fs, launches := launches, temps := temps,
      handler := some .genericExn, early := false }
  | .otherFailure m =>
    { audio := none, status := st4 ++ genericMsg (.otherExn m),
      fs := fs, launches := launches, temps := temps,
      handler := some .genericExn, early := false }

/-- The `try` block of `generate_tts`: validation, optional conversion,
    synthesis; conversion failures land in the generic handler (the
    dedicated clause only matches `subprocess.CalledProcessError`, which
    `convert_audio` re-raises as `RuntimeError`). -/
def tryPhase (env : Env) (fs0 : List String) (text language : String)
    (speaker_file : Option String) : TryRes :=
  let st0 := "Starte TTS-Generierung...\n"
  if text = "" ∨ pyStrip text = "" then
    { audio := none, status := st0 ++ "‚ö†Ô∏è Der Eingabetext ist leer.\n",
      fs := fs0, launches := [], temps := [], handler := none, early := true }
  else
    match speaker_file with
    | none =>
      { audio := none,
        status := st0 ++ "‚ö†Ô∏è Es wurde keine Referenz-Audiodatei hochgeladen.\n",
        fs := fs0, launches := [], temps := [], handler := none, early := true }
    | some speaker0 =>
      let st1 := st0 ++ "Referenzdatei: " ++ speaker0 ++ "\n"
      if pyEndsWith (pyLower speaker0) ".wav" then
        synthPhase env fs0 text language speaker0 st1 [] []
      else
        let st2 := st1 ++ "Konvertiere Audio in das WAV-Format...\n"
        match convert_audio env fs0 speaker0 "Audiokonvertierung (ffmpeg)" with
        | (fs1, .ok cpath) =>
          synthPhase env fs1 text language cpath
            (st2 ++ "Konvertierung abgeschlossen: " ++ cpath ++ "\n")
            [ffmpegCommand speaker0] [cpath]
        | (fs1, .error e) =>
          { audio := none, status := st2 ++ genericMsg e, fs := fs1,
            launches := [ffmpegCommand speaker0], temps := [],
            handler := some .genericExn, early := false }

/-- The value returned by `generate_tts` together with the observable
    effects of the request. -/
structure GenOut where
  audio : Option String
  status : String
  fs : List String
  launches : List (List String)
  tempCreated : List String
  cleanupRuns : Nat
  handler : Option Handler

/-- Function `generate_tts` (src/app.py:197-276): the `try` block followed by the
    single `finally` cleanup.  An early validation `return` evaluates its
    tuple before `finally` mutates `status_message`, so its returned
    status omits the cleanup lines (its temp list is empty anyway). -/
def generate_tts (env : Env) (fs0 : List String) (text language : String)
    (speaker_file : Option String) : GenOut :=
  let r := tryPhase env fs0 text language speaker_file
  let c := cleanupTemps r.fs r.status r.temps
  { audio := r.audio,
    status := if r.early then r.status else c.2,
    fs := c.1,
    launches := r.launches,
    tempCreated := r.temps,
    cleanupRuns := 1,
    handler := r.handler }

/-- The output artifact path for a request at the given timestamp,
    associated exactly as `generate_tts` builds it. -/
def outputPathStr (env : Env) : String :=
  "generierte_stimmen/" ++ ("output_" ++ env.timestamp ++ ".wav")

/-- Substring containment of the status text. -/
def containsStr (s sub : String) : Prop := ∃ p q, s = p ++ sub ++ q

/-- Spec-side guard predicate, written from the words of the spec: the
    resolved candidate "is equal to or nested under the resolved root". -/
def specWithinB (r c : List String) : Bool := c == r || (r.isPrefixOf c && c != r)

/-- Spec-side strict variant: the resolved candidate is strictly nested
    under the resolved root. -/
def strictlyUnderB (r c : List String) : Bool := r.isPrefixOf c && c != r

/-! ## Auxiliary lemmas -/

theorem containsStr_appendR {s mid : String} (b : String) (h : containsStr s mid) :
    containsStr (s ++ b) mid := by
  obtain ⟨p, q, rfl⟩ := h
  exact ⟨p, q ++ b, by simp [String.append_assoc]⟩

theorem containsStr_appendL {s mid : String} (a : String) (h : containsStr s mid) :
    containsStr (a ++ s) mid := by
  obtain ⟨p, q, rfl⟩ := h
  exact ⟨a ++ p, q, by simp [String.append_assoc]⟩

theorem containsStr_self2 (a mid : String) : containsStr (a ++ mid) mid :=
  ⟨a, "", by rw [String.append_empty]⟩

theorem containsStr_pair (p a b : String) : containsStr (p ++ a ++ b) (a ++ b) :=
  ⟨p, "", by rw [String.append_empty, String.append_assoc]⟩

theorem containsStr_triple (p a b c : String) : containsStr (p ++ a ++ b ++ c) (a ++ b ++ c) :=
  ⟨p, "", by rw [String.append_empty]; simp [String.append_assoc]⟩

/-- The converted path always carries the `.wav` extension, also after
    lower-casing. -/
theorem converted_ends_wav (s : String) :
    pyEndsWith (pyLower (converted_path s)) ".wav" = true := by
  unfold pyEndsWith pyLower converted_path
  rw [List.isSuffixOf_iff_suffix]
  simp only [String.data_append, List.map_append]
  have h1 : List.map Char.toLower "_converted.wav".data = "_converted.wav".data := by decide
  rw [h1]
  have h2 : ".wav".data <:+ "_converted.wav".data := by
    rw [← List.isSuffixOf_iff_suffix]
    decide
  exact h2.trans (List.suffix_append _ _)

/-- A speaker path that does not end in `.wav` (case-insensitively) is
    never equal to its own converted path. -/
theorem converted_ne_of_not_wav {s : String}
    (h : pyEndsWith (pyLower s) ".wav" = false) : converted_path s ≠ s := by
  intro he
  rw [← he, converted_ends_wav] at h
  cases h

theorem take_isPrefixOf : ∀ (c : List String) (k : Nat), (c.take k).isPrefixOf c = true
  | _, 0 => by simp [List.isPrefixOf]
  | [], _ + 1 => by simp [List.isPrefixOf]
  | a :: c, k + 1 => by simp [List.isPrefixOf, take_isPrefixOf c k]

theorem isPrefixOf_exists_append :
    ∀ (r c : List String), r.isPrefixOf c = true ↔ ∃ t, c = r ++ t
  | [], c => by simp [List.isPrefixOf]
  | a :: r, [] => by simp [List.isPrefixOf]
  | a :: r, b :: c => by
    simp only [List.isPrefixOf, Bool.and_eq_true, beq_iff_eq]
    constructor
    · rintro ⟨rfl, h⟩
      obtain ⟨t, rfl⟩ := (isPrefixOf_exists_append r c).mp h
      exact ⟨t, rfl⟩
    · rintro ⟨t, ht⟩
      rw [List.cons_append] at ht
      injection ht with h1 h2
      subst h1
      exact ⟨rfl, (isPrefixOf_exists_append r c).mpr ⟨t, h2⟩⟩

/-- Membership in `parentsOf` is exactly being a strict ancestor. -/
theorem mem_parentsOf {r c : List String} :
    r ∈ parentsOf c ↔ (r.isPrefixOf c = true ∧ r ≠ c) := by
  unfold parentsOf
  simp only [List.mem_map, List.mem_range]
  constructor
  · rintro ⟨k, hk, rfl⟩
    refine ⟨take_isPrefixOf c k, fun h => ?_⟩
    have hlen := congrArg List.length h
    rw [List.length_take] at hlen
    omega
  · rintro ⟨hpre, hne⟩
    obtain ⟨t, rfl⟩ := (isPrefixOf_exists_append r c).mp hpre
    have ht : t ≠ [] := by rintro rfl; simp at hne
    refine ⟨r.length, ?_, List.take_left r t⟩
    have : 0 < t.length := List.length_pos.mpr ht
    simp [List.length_append]
    omega

/-- The Bool guard `strictlyUnderB` and `parentsOf` membership agree. -/
theorem strictlyUnderB_iff_mem_parentsOf {r c : List String} :
    strictlyUnderB r c = true ↔ r ∈ parentsOf c := by
  rw [mem_parentsOf]
  simp only [strictlyUnderB, Bool.and_eq_true, bne_iff_ne]
  exact ⟨fun ⟨h1, h2⟩ => ⟨h1, fun h => h2 h.symm⟩, fun ⟨h1, h2⟩ => ⟨h1, fun h => h2 h.symm⟩⟩

/-- Files surviving the cleanup pass were present before it. -/
theorem cleanup_subset :
    ∀ (temps : List String) (fs : List String) (st : String) (f : String),
      f ∈ (cleanupTemps fs st temps).1 → f ∈ fs := by
  intro temps
  induction temps with
  | nil => intro fs st f h; exact h
  | cons t rest ih =>
    intro fs st f h
    unfold cleanupTemps os_remove at h
    by_cases hm : t ∈ fs
    · simp only [if_pos hm] at h
      exact (List.mem_filter.mp (ih _ _ _ h)).1
    · simp only [if_neg hm] at h
      exact ih _ _ _ h

/-- Every listed temporary file is gone after the cleanup pass. -/
theorem cleanup_removes :
    ∀ (temps : List String) (fs : List String) (st : String) (t : String),
      t ∈ temps → t ∉ (cleanupTemps fs st temps).1 := by
  intro temps
  induction temps with
  | nil => intro fs st t h; cases h
  | cons u rest ih =>
    intro fs st t ht hmem
    unfold cleanupTemps os_remove at hmem
    by_cases hm : u ∈ fs
    · simp only [if_pos hm] at hmem
      rcases List.mem_cons.mp ht with rfl | ht
      · have := (List.mem_filter.mp (cleanup_subset rest _ _ _ hmem)).2
        simp at this
      · exact ih _ _ _ ht hmem
    · simp only [if_neg hm] at hmem
      rcases List.mem_cons.mp ht with rfl | ht
      · exact hm (cleanup_subset rest _ _ _ hmem)
      · exact ih _ _ _ ht hmem

/-- Cleaning files that are all already absent changes nothing: removing
    an already-removed temporary file is caught, not raised. -/
theorem cleanup_noop :
    ∀ (temps : List String) (fs : List String) (st : String),
      (∀ t ∈ temps, t ∉ fs) → (cleanupTemps fs st temps).1 = fs := by
  intro temps
  induction temps with
  | nil => intro fs st _; rfl
  | cons u rest ih =>
    intro fs st h
    unfold cleanupTemps os_remove
    have hu : u ∉ fs := h u (by simp)
    simp only [if_neg hu]
    exact ih _ _ (fun t ht => h t (by simp [ht]))

/-- Inserting into the stable descending sort is a permutation. -/
theorem perm_insertDescLe (x : String × Nat) :
    ∀ l, (insertDescLe x l).Perm (x :: l) := by
  intro l
  induction l with
  | nil => simp [insertDescLe]
  | cons y ys ih =>
    unfold insertDescLe
    by_cases h : y.2 ≤ x.2
    · simp [h]
    · rw [if_neg h]
      exact (ih.cons y).trans (List.Perm.swap x y ys)

/-- The stable descending sort is a permutation of its input. -/
theorem perm_pyStableSortDesc : ∀ l, (pyStableSortDesc l).Perm l := by
  intro l
  induction l with
  | nil => simp [pyStableSortDesc]
  | cons x xs ih =>
    exact (perm_insertDescLe x (pyStableSortDesc xs)).trans (ih.cons x)

/-- Insertion preserves the non-increasing-mtime invariant. -/
theorem pairwise_insertDescLe (x : String × Nat) :
    ∀ l, l.Pairwise (fun a b : String × Nat => b.2 ≤ a.2) →
      (insertDescLe x l).Pairwise (fun a b : String × Nat => b.2 ≤ a.2) := by
  intro l
  induction l with
  | nil => intro _; simp [insertDescLe]
  | cons y ys ih =>
    intro hp
    rcases List.pairwise_cons.mp hp with ⟨hy, hys⟩
    unfold insertDescLe
    by_cases h : y.2 ≤ x.2
    · rw [if_pos h]
      refine List.pairwise_cons.mpr ⟨?_, hp⟩
      intro z hz
      rcases List.mem_cons.mp hz with rfl | hz
      · exact h
      · exact le_trans (hy z hz) h
    · rw [if_neg h]
      refine List.pairwise_cons.mpr ⟨?_, ih hys⟩
      intro z hz
      rcases List.mem_cons.mp ((perm_insertDescLe x ys).mem_iff.mp hz) with rfl | hz
      · exact le_of_not_le h
      · exact hy z hz

/-- The sort output is non-increasing in modification time. -/
theorem pairwise_pyStableSortDesc :
    ∀ l, (pyStableSortDesc l).Pairwise (fun a b : String × Nat => b.2 ≤ a.2) := by
  intro l
  induction l with
  | nil => simp [pyStableSortDesc]
  | cons x xs ih => exact pairwise_insertDescLe x (pyStableSortDesc xs) ih

/-! ## Claims -/

/-- Claim C1, counterexample.  The claim says every candidate resolving
    equal to or nested under the resolved output root is classified as
    within the root.  But the guard tests membership of the resolved root
    in the candidate `parents` list, which excludes the path itself: a
    candidate resolving exactly to the root satisfies the spec predicate
    `specWithinB` yet `delete_file` reports a security violation. -/
theorem C1_counterexample :
    specWithinB (resolvePath ⟨[], [], []⟩ output_dir)
        (resolvePath ⟨[], [], []⟩ ["generierte_stimmen"]) = true ∧
    (delete_file ⟨[], [], []⟩ (some ["generierte_stimmen"])).2
      = DelOutcome.caughtError DelExn.securityViolation := by
  exact ⟨by decide, by decide⟩

/-- Claim C1, amended: a file is removed only if the canonical resolution
    of the candidate (symlinks and `..` resolved) is strictly inside the
    canonical resolution of the output root; every candidate resolving
    outside or exactly equal to the root leaves the filesystem untouched
    and reports a security violation; every candidate resolving strictly
    inside is classified as within the root (not a security violation). -/
theorem C1_theorem (fs : FS) (p : List String) (hp : p ≠ []) :
    (strictlyUnderB (resolvePath fs output_dir) (resolvePath fs p) = false →
      delete_file fs (some p) = (fs, DelOutcome.caughtError DelExn.securityViolation)) ∧
    (strictlyUnderB (resolvePath fs output_dir) (resolvePath fs p) = true →
      (delete_file fs (some p)).2 ≠ DelOutcome.caughtError DelExn.securityViolation) ∧
    ((delete_file fs (some p)).1 ≠ fs →
      strictlyUnderB (resolvePath fs output_dir) (resolvePath fs p) = true) := by
  have hempty : p.isEmpty = false := by
    cases p with
    | nil => exact absurd rfl hp
    | cons a l => rfl
  have hsec : strictlyUnderB (resolvePath fs output_dir) (resolvePath fs p) = false →
      delete_file fs (some p) = (fs, DelOutcome.caughtError DelExn.securityViolation) := by
    intro hout
    have hnotmem : resolvePath fs output_dir ∉ parentsOf (resolvePath fs p) := by
      rw [← strictlyUnderB_iff_mem_parentsOf]
      simp [hout]
    simp [delete_file, hempty, hnotmem]
  refine ⟨hsec, ?_, ?_⟩
  · intro hin
    have hmem := strictlyUnderB_iff_mem_parentsOf.mp hin
    simp only [delete_file, hempty, Bool.false_eq_true, if_false, if_pos hmem]
    split
    · split
      · simp
      · simp
    · simp
  · intro hchange
    by_cases hin : strictlyUnderB (resolvePath fs output_dir) (resolvePath fs p) = true
    · exact hin
    · exact absurd (congrArg Prod.fst (hsec (by simpa using hin))) hchange

/-- Claim C1, witness: a symlink placed inside the output directory but
    pointing at /etc/passwd resolves outside the root, so deletion is
    refused with a security violation and the filesystem is unchanged. -/
theorem C1_witness :
    delete_file ⟨[["etc", "passwd"]],
        [(["generierte_stimmen", "evil.wav"], ["etc", "passwd"])], []⟩
      (some ["generierte_stimmen", "evil.wav"])
      = (⟨[["etc", "passwd"]],
          [(["generierte_stimmen", "evil.wav"], ["etc", "passwd"])], []⟩,
         DelOutcome.caughtError DelExn.securityViolation) :=
  (C1_theorem _ _ (by decide)).1 (by decide)

/-- Claim C10: deletion with no selection reports "nothing selected" and
    leaves the filesystem untouched; a path strictly inside the root whose
    file is absent reports the caught `FileNotFoundError` rather than
    crashing; any other filesystem failure while unlinking an existing
    in-root file is reported as the unexpected-error outcome. -/
theorem C10_theorem (fs : FS) :
    (delete_file fs none = (fs, DelOutcome.nothingSelected)) ∧
    (delete_file fs (some []) = (fs, DelOutcome.nothingSelected)) ∧
    (∀ segs, segs ≠ [] →
      strictlyUnderB (resolvePath fs output_dir) (resolvePath fs segs) = true →
      resolvePath fs segs ∉ fs.files →
      delete_file fs (some segs) = (fs, DelOutcome.caughtError DelExn.fileNotFound)) ∧
    (∀ segs, segs ≠ [] →
      strictlyUnderB (resolvePath fs output_dir) (resolvePath fs segs) = true →
      resolvePath fs segs ∈ fs.files → resolvePath fs segs ∈ fs.failing →
      delete_file fs (some segs) = (fs, DelOutcome.unexpectedError)) := by
  refine ⟨rfl, rfl, ?_, ?_⟩
  · intro segs hne hin habs
    have hempty : segs.isEmpty = false := by
      cases segs with
      | nil => exact absurd rfl hne
      | cons a l => rfl
    have hmem := strictlyUnderB_iff_mem_parentsOf.mp hin
    simp [delete_file, hempty, hmem, habs]
  · intro segs hne hin hfile hfail
    have hempty : segs.isEmpty = false := by
      cases segs with
      | nil => exact absurd rfl hne
      | cons a l => rfl
    have hmem := strictlyUnderB_iff_mem_parentsOf.mp hin
    simp [delete_file, hempty, hmem, hfile, hfail]

/-- Claim C10, witness: deleting `generierte_stimmen/ghost.wav` on an
    empty filesystem reports the caught file-not-found outcome. -/
theorem C10_witness :
    delete_file ⟨[], [], []⟩ (some ["generierte_stimmen", "ghost.wav"])
      = (⟨[], [], []⟩, DelOutcome.caughtError DelExn.fileNotFound) :=
  (C10_theorem _).2.2.1 ["generierte_stimmen", "ghost.wav"]
    (by decide) (by decide) (by decide)

/-- Claim C7: every call to the registry listing returns, without ever
    raising, exactly the `.wav` files of the output directory — the
    artifact extension convention the glob implements (a permutation of
    them), sorted with modification times non-increasing (newest first;
    ties keep the deterministic enumeration order of the scan, so the
    result is a total order); an absent directory and an unreadable
    directory (whose `PermissionError` CPython's glob suppresses
    internally) both yield the empty sequence, never an error. -/
theorem C7_theorem (d : DirState) :
    (∃ l, get_generated_files d = Except.ok l) ∧
    (d = DirState.missing → get_generated_files d = Except.ok []) ∧
    (d = DirState.unreadable → get_generated_files d = Except.ok []) ∧
    (∀ es, d = DirState.present es →
      ∃ l, listWavFiles d = Except.ok l ∧
        l.Perm (wavEntries es) ∧
        l.Pairwise (fun a b : String × Nat => b.2 ≤ a.2)) := by
  refine ⟨?_, ?_, ?_, ?_⟩
  · cases d with
    | missing => exact ⟨[], rfl⟩
    | unreadable => exact ⟨[], rfl⟩
    | present es => exact ⟨_, rfl⟩
  · rintro rfl; rfl
  · rintro rfl; rfl
  · rintro es rfl
    exact ⟨_, rfl, perm_pyStableSortDesc _, pairwise_pyStableSortDesc _⟩

/-- Claim C7, witness: a directory holding `b.wav`, `a.txt`, `a.wav`,
    `c.wav` lists exactly the three `.wav` files newest first. -/
theorem C7_witness :
    ∃ l, listWavFiles (DirState.present
        [("b.wav", 5), ("a.txt", 9), ("a.wav", 5), ("c.wav", 7)]) = Except.ok l ∧
      l.Perm (wavEntries [("b.wav", 5), ("a.txt", 9), ("a.wav", 5), ("c.wav", 7)]) ∧
      l.Pairwise (fun a b : String × Nat => b.2 ≤ a.2) :=
  (C7_theorem _).2.2.2 [("b.wav", 5), ("a.txt", 9), ("a.wav", 5), ("c.wav", 7)] rfl

/-- Claim C9, counterexample.  The claim says every conversion writes to
    a freshly generated, collision-free temporary path, distinct across
    calls.  The path is derived deterministically from the input stem:
    two distinct inputs with the same stem collide. -/
theorem C9_counterexample :
    ("/a/voice.mp3" : String) ≠ "/b/voice.mp3" ∧
    converted_path "/a/voice.mp3" = converted_path "/b/voice.mp3" := by
  exact ⟨by decide, by decide⟩

/-- Claim C9, amended: the conversion writes to the deterministic path
    `tempdir/stem_converted.wav` derived from the stem of the input (calls on
    inputs sharing a stem reuse the same path, overwritten via
    `ffmpeg -y`, so names are not collision-free); on success the
    external process creates exactly that one temporary file; on timeout,
    non-zero exit, missing executable or any other launch failure no file
    is created and a typed error is raised. -/
theorem C9_theorem (env : Env) (fs : List String) (input pname : String) :
    (∀ o e, env.ffmpegResult = ProcResult.ok o e →
      convert_audio env fs input pname
        = (converted_path input :: fs, Except.ok (converted_path input))) ∧
    ((∀ o e, env.ffmpegResult ≠ ProcResult.ok o e) →
      (convert_audio env fs input pname).1 = fs ∧
      ∃ er, (convert_audio env fs input pname).2 = Except.error er) ∧
    (∀ input2, stemOf (lastComponent input) = stemOf (lastComponent input2) →
      converted_path input = converted_path input2) := by
  refine ⟨?_, ?_, ?_⟩
  · intro o e h
    simp [convert_audio, h]
  · intro h
    cases hres : env.ffmpegResult with
    | ok o e => exact absurd hres (h o e)
    | exitError rc o e =>
      refine ⟨by simp [convert_audio, hres], ?_⟩
      simp only [convert_audio, hres]
      exact ⟨_, rfl⟩
    | timeout =>
      refine ⟨by simp [convert_audio, hres], ?_⟩
      simp only [convert_audio, hres]
      exact ⟨_, rfl⟩
    | execMissing =>
      refine ⟨by simp [convert_audio, hres], ?_⟩
      simp only [convert_audio, hres]
      exact ⟨_, rfl⟩
    | otherFailure m =>
      refine ⟨by simp [convert_audio, hres], ?_⟩
      simp only [convert_audio, hres]
      exact ⟨_, rfl⟩
  · intro input2 h
    simp [converted_path, h]

/-- Claim C9, witness: a successful conversion of `/a/voice.mp3` creates
    exactly the file `/tmp/voice_converted.wav` and returns its path. -/
theorem C9_witness :
    convert_audio ⟨ProcResult.ok "" "", ProcResult.ok "" "", true, "ts"⟩ []
        "/a/voice.mp3" "Audiokonvertierung (ffmpeg)"
      = (["/tmp/voice_converted.wav"], Except.ok "/tmp/voice_converted.wav") :=
  (C9_theorem _ _ _ _).1 "" "" rfl

/-- Claim C5: the output filename is derived solely from the
    one-second-resolution `strftime` timestamp of the request.  Two
    successful requests within the same clock tick (same formatted
    timestamp) receive the identical artifact path, so the second
    overwrites the first — the code does not satisfy the required
    non-collision property the spec states (and itself flags in §9). -/
theorem C5_theorem :
    (generate_tts ⟨ProcResult.ok "" "", ProcResult.ok "" "", true, "20260101-120000"⟩
        [] "Hallo" "Deutsch" (some "/a/ref.wav")).audio
      = some "generierte_stimmen/output_20260101-120000.wav" ∧
    (generate_tts ⟨ProcResult.ok "" "", ProcResult.ok "" "", true, "20260101-120000"⟩
        [] "Welt" "Deutsch" (some "/b/ref.wav")).audio
      = (generate_tts ⟨ProcResult.ok "" "", ProcResult.ok "" "", true, "20260101-120000"⟩
          [] "Hallo" "Deutsch" (some "/a/ref.wav")).audio := by
  exact ⟨by decide, by decide⟩

/-- Claim C8, counterexample.  The claim says the orchestrator verifies
    the artifact exists before reporting success.  With an engine that
    exits 0 without writing the artifact, `generate_tts` still returns
    the output path as a success although the file is not on disk. -/
theorem C8_counterexample :
    (generate_tts ⟨ProcResult.ok "" "", ProcResult.ok "" "", false, "ts"⟩
        [] "Hallo" "Deutsch" (some "/r.wav")).audio
      = some "generierte_stimmen/output_ts.wav" ∧
    "generierte_stimmen/output_ts.wav"
      ∉ (generate_tts ⟨ProcResult.ok "" "", ProcResult.ok "" "", false, "ts"⟩
          [] "Hallo" "Deutsch" (some "/r.wav")).fs := by
  exact ⟨by decide, by decide⟩

/-- Claim C2: a request with empty or whitespace-only text, or with an
    absent reference-audio input, returns no audio path, launches no
    subprocess, and puts the corresponding validation warning into the
    status log. -/
theorem C2_theorem (env : Env) (fs0 : List String) (text language : String)
    (speaker_file : Option String) :
    ((text = "" ∨ pyStrip text = "") →
      (generate_tts env fs0 text language speaker_file).audio = none ∧
      (generate_tts env fs0 text language speaker_file).launches = [] ∧
      containsStr (generate_tts env fs0 text language speaker_file).status
        "Der Eingabetext ist leer") ∧
    (speaker_file = none →
      (generate_tts env fs0 text language speaker_file).audio = none ∧
      (generate_tts env fs0 text language speaker_file).launches = []) ∧
    (speaker_file = none → ¬(text = "" ∨ pyStrip text = "") →
      containsStr (generate_tts env fs0 text language speaker_file).status
        "Es wurde keine Referenz-Audiodatei hochgeladen") := by
  refine ⟨?_, ?_, ?_⟩
  · intro h
    refine ⟨by simp [generate_tts, tryPhase, if_pos h], by simp [generate_tts, tryPhase, if_pos h], ?_⟩
    simp only [generate_tts, tryPhase, if_pos h, if_true]
    exact ⟨"Starte TTS-Generierung...\n‚ö†Ô∏è ", ".\n", by decide⟩
  · rintro rfl
    by_cases h : text = "" ∨ pyStrip text = ""
    · exact ⟨by simp [generate_tts, tryPhase, if_pos h], by simp [generate_tts, tryPhase, if_pos h]⟩
    · exact ⟨by simp [generate_tts, tryPhase, if_neg h], by simp [generate_tts, tryPhase, if_neg h]⟩
  · rintro rfl h
    simp only [generate_tts, tryPhase, if_neg h, if_true]
    exact ⟨"Starte TTS-Generierung...\n‚ö†Ô∏è ", ".\n", by decide⟩

/-- Claim C2, witness: whitespace-only text on an otherwise healthy
    environment yields no audio, no launch, and the warning. -/
theorem C2_witness :
    (generate_tts ⟨ProcResult.ok "" "", ProcResult.ok "" "", true, "ts"⟩
        [] "   " "Deutsch" (some "/r.wav")).audio = none ∧
    (generate_tts ⟨ProcResult.ok "" "", ProcResult.ok "" "", true, "ts"⟩
        [] "   " "Deutsch" (some "/r.wav")).launches = [] ∧
    containsStr (generate_tts ⟨ProcResult.ok "" "", ProcResult.ok "" "", true, "ts"⟩
        [] "   " "Deutsch" (some "/r.wav")).status "Der Eingabetext ist leer" :=
  (C2_theorem _ _ _ _ _).1 (Or.inr (by decide))

/-- Claim C3: the cleanup step runs exactly once per request on every
    exit route; every temporary file created during normalization is
    absent from the filesystem at the end of the request; and removing a
    list of already-removed temporary files is caught rather than raised,
    leaving the filesystem unchanged (idempotent cleanup). -/
theorem C3_theorem (env : Env) (fs0 : List String) (text language : String)
    (speaker_file : Option String) :
    (generate_tts env fs0 text language speaker_file).cleanupRuns = 1 ∧
    (∀ f ∈ (generate_tts env fs0 text language speaker_file).tempCreated,
      f ∉ (generate_tts env fs0 text language speaker_file).fs) ∧
    (∀ temps fs st st2,
      (cleanupTemps (cleanupTemps fs st temps).1 st2 temps).1
        = (cleanupTemps fs st temps).1) := by
  refine ⟨rfl, ?_, ?_⟩
  · intro f hf
    exact cleanup_removes _ _ _ _ hf
  · intro temps fs st st2
    exact cleanup_noop temps _ st2 (fun t ht => cleanup_removes temps fs st t ht)

/-- Claim C3, witness: a conversion followed by a synthesis timeout still
    leaves the temporary `/tmp/r_converted.wav` removed at the end. -/
theorem C3_witness :
    (generate_tts ⟨ProcResult.ok "" "", ProcResult.timeout, true, "ts"⟩
        [] "Hallo" "Deutsch" (some "/r.mp3")).cleanupRuns = 1 ∧
    "/tmp/r_converted.wav"
      ∉ (generate_tts ⟨ProcResult.ok "" "", ProcResult.timeout, true, "ts"⟩
          [] "Hallo" "Deutsch" (some "/r.mp3")).fs :=
  ⟨(C3_theorem ⟨ProcResult.ok "" "", ProcResult.timeout, true, "ts"⟩
      [] "Hallo" "Deutsch" (some "/r.mp3")).1,
   (C3_theorem ⟨ProcResult.ok "" "", ProcResult.timeout, true, "ts"⟩
      [] "Hallo" "Deutsch" (some "/r.mp3")).2.1 "/tmp/r_converted.wav" (by decide)⟩

/-- Claim C6: a reference file already carrying the `.wav` extension
    (case-insensitively) skips normalization — no temporary file, no
    conversion launch, and the synthesis command receives the original
    path; a reference in another format triggers exactly one conversion
    launch before the synthesis launch, and the synthesis command
    receives the converted path, which differs from the original. -/
theorem C6_theorem (env : Env) (fs0 : List String) (text language s : String)
    (htext : ¬(text = "" ∨ pyStrip text = "")) :
    (pyEndsWith (pyLower s) ".wav" = true →
      (generate_tts env fs0 text language (some s)).tempCreated = [] ∧
      (generate_tts env fs0 text language (some s)).launches
        = [ttsCommand text s (langLookup language) (outputPathStr env)]) ∧
    (pyEndsWith (pyLower s) ".wav" = false →
      ∀ o e, env.ffmpegResult = ProcResult.ok o e →
        (generate_tts env fs0 text language (some s)).launches
          = [ffmpegCommand s,
             ttsCommand text (converted_path s) (langLookup language) (outputPathStr env)] ∧
        converted_path s ≠ s) := by
  constructor
  · intro hw
    constructor
    · cases hres : env.ttsResult <;>
        simp [generate_tts, tryPhase, if_neg htext, hw, synthPhase, hres]
    · cases hres : env.ttsResult <;>
        simp [generate_tts, tryPhase, if_neg htext, hw, synthPhase, hres, outputPathStr]
  · intro hw o e hok
    refine ⟨?_, converted_ne_of_not_wav hw⟩
    cases hres : env.ttsResult <;>
      simp [generate_tts, tryPhase, if_neg htext, hw, convert_audio, hok, synthPhase,
        hres, outputPathStr]

/-- Claim C6, witness: a `.wav` reference is passed to the synthesis
    command untouched, with no temporary file created. -/
theorem C6_witness :
    (generate_tts ⟨ProcResult.ok "" "", ProcResult.ok "" "", true, "ts"⟩
        [] "Hallo" "Deutsch" (some "/r.wav")).tempCreated = [] ∧
    (generate_tts ⟨ProcResult.ok "" "", ProcResult.ok "" "", true, "ts"⟩
        [] "Hallo" "Deutsch" (some "/r.wav")).launches
      = [ttsCommand "Hallo" "/r.wav" (langLookup "Deutsch")
          (outputPathStr ⟨ProcResult.ok "" "", ProcResult.ok "" "", true, "ts"⟩)] :=
  (C6_theorem _ _ _ _ _ (by decide)).1 (by decide)

/-- Claim C8, amended: when the synthesis process exits with code zero,
    `generate_tts` reports success carrying the generated output path
    without verifying that the artifact exists — the same path is
    returned whether or not the engine wrote the file (the quantification
    over `ttsWritesOutput` leaves the conclusion unchanged). -/
theorem C8_theorem (env : Env) (fs0 : List String) (text language s o e : String)
    (htext : ¬(text = "" ∨ pyStrip text = ""))
    (hok : env.ttsResult = ProcResult.ok o e)
    (hconv : pyEndsWith (pyLower s) ".wav" = true ∨
      ∃ o2 e2, env.ffmpegResult = ProcResult.ok o2 e2) :
    (generate_tts env fs0 text language (some s)).audio = some (outputPathStr env) := by
  by_cases hw : pyEndsWith (pyLower s) ".wav" = true
  · simp [generate_tts, tryPhase, if_neg htext, hw, synthPhase, hok, outputPathStr]
  · have hwf : pyEndsWith (pyLower s) ".wav" = false := by
      cases hb : pyEndsWith (pyLower s) ".wav" with
      | true => exact absurd hb hw
      | false => rfl
    rcases hconv with hw2 | ⟨o2, e2, hf⟩
    · exact absurd hw2 hw
    · simp [generate_tts, tryPhase, if_neg htext, hwf, convert_audio, hf, synthPhase,
        hok, outputPathStr]

/-- Claim C8, witness: an engine that exits 0 without writing the file
    still gets a success outcome carrying the output path. -/
theorem C8_witness :
    (generate_tts ⟨ProcResult.ok "" "", ProcResult.ok "sout" "serr", false, "ts"⟩
        [] "Hi" "Deutsch" (some "/r.wav")).audio
      = some (outputPathStr ⟨ProcResult.ok "" "", ProcResult.ok "sout" "serr", false, "ts"⟩) :=
  C8_theorem _ _ _ _ _ "sout" "serr" (by decide) rfl (Or.inl (by decide))

/-- Claim C4, counterexample.  The claim says each synthesis failure is
    mapped to its own distinct typed outcome (executable missing, timeout,
    non-zero exit, other launch failure).  Only `CalledProcessError` has
    a dedicated handler; a timeout and a missing executable are both
    handled by the same generic `except Exception` branch. -/
theorem C4_counterexample :
    (generate_tts ⟨ProcResult.ok "" "", ProcResult.timeout, true, "ts"⟩
        [] "Test" "Deutsch" (some "/r.wav")).handler
      = (generate_tts ⟨ProcResult.ok "" "", ProcResult.execMissing, true, "ts"⟩
          [] "Test" "Deutsch" (some "/r.wav")).handler ∧
    (generate_tts ⟨ProcResult.ok "" "", ProcResult.timeout, true, "ts"⟩
        [] "Test" "Deutsch" (some "/r.wav")).handler = some Handler.genericExn := by
  exact ⟨by decide, by decide⟩

/-- Claim C4, amended: a non-zero exit of the synthesis process is mapped
    to the dedicated `CalledProcessError` outcome whose diagnostic text
    carries the exit code and both captured streams verbatim; a missing
    executable, a timeout, and any other launch failure are all mapped to
    the single generic unexpected-error outcome (not each to its own),
    whose text carries the exception message — for a timeout including
    the configured 300-second limit; in every case no exception
    propagates: the call returns an outcome with no audio path. -/
theorem C4_theorem (env : Env) (fs0 : List String) (text language s : String)
    (htext : ¬(text = "" ∨ pyStrip text = ""))
    (hw : pyEndsWith (pyLower s) ".wav" = true) :
    (∀ rc o e, env.ttsResult = ProcResult.exitError rc o e →
      (generate_tts env fs0 text language (some s)).handler = some Handler.calledProcess ∧
      (generate_tts env fs0 text language (some s)).audio = none ∧
      containsStr (generate_tts env fs0 text language (some s)).status
        ("Exit-Code: " ++ toString rc) ∧
      containsStr (generate_tts env fs0 text language (some s)).status o ∧
      containsStr (generate_tts env fs0 text language (some s)).status e) ∧
    (env.ttsResult = ProcResult.timeout →
      (generate_tts env fs0 text language (some s)).handler = some Handler.genericExn ∧
      (generate_tts env fs0 text language (some s)).audio = none ∧
      containsStr (generate_tts env fs0 text language (some s)).status
        (" timed out after " ++ toString (300 : Nat) ++ " seconds")) ∧
    (env.ttsResult = ProcResult.execMissing →
      (generate_tts env fs0 text language (some s)).handler = some Handler.genericExn ∧
      (generate_tts env fs0 text language (some s)).audio = none ∧
      containsStr (generate_tts env fs0 text language (some s)).status
        "Ein unerwarteter Fehler ist aufgetreten") ∧
    (∀ m, env.ttsResult = ProcResult.otherFailure m →
      (generate_tts env fs0 text language (some s)).handler = some Handler.genericExn ∧
      (generate_tts env fs0 text language (some s)).audio = none ∧
      containsStr (generate_tts env fs0 text language (some s)).status m) := by
  refine ⟨?_, ?_, ?_, ?_⟩
  · intro rc o e hres
    refine ⟨by simp [generate_tts, tryPhase, if_neg htext, hw, synthPhase, hres],
            by simp [generate_tts, tryPhase, if_neg htext, hw, synthPhase, hres],
            ?_, ?_, ?_⟩
    · simp only [generate_tts, tryPhase, if_neg htext, hw, eq_self_iff_true, if_true,
        synthPhase, hres, cleanupTemps, Bool.false_eq_true, if_false]
      apply containsStr_appendR
      apply containsStr_appendR
      apply containsStr_appendR
      apply containsStr_appendR
      apply containsStr_appendR
      apply containsStr_appendR
      apply containsStr_appendR
      exact containsStr_pair _ _ _
    · simp only [generate_tts, tryPhase, if_neg htext, hw, eq_self_iff_true, if_true,
        synthPhase, hres, cleanupTemps, Bool.false_eq_true, if_false]
      apply containsStr_appendR
      apply containsStr_appendR
      apply containsStr_appendR
      apply containsStr_appendR
      exact containsStr_self2 _ _
    · simp only [generate_tts, tryPhase, if_neg htext, hw, eq_self_iff_true, if_true,
        synthPhase, hres, cleanupTemps, Bool.false_eq_true, if_false]
      apply containsStr_appendR
      exact containsStr_self2 _ _
  · intro hres
    refine ⟨by simp [generate_tts, tryPhase, if_neg htext, hw, synthPhase, hres],
            by simp [generate_tts, tryPhase, if_neg htext, hw, synthPhase, hres],
            ?_⟩
    simp only [generate_tts, tryPhase, if_neg htext, hw, eq_self_iff_true, if_true,
      synthPhase, hres, cleanupTemps, Bool.false_eq_true, if_false, genericMsg, exnStr]
    apply containsStr_appendL
    apply containsStr_appendR
    apply containsStr_appendL
    exact containsStr_triple _ _ _ _
  · intro hres
    refine ⟨by simp [generate_tts, tryPhase, if_neg htext, hw, synthPhase, hres],
            by simp [generate_tts, tryPhase, if_neg htext, hw, synthPhase, hres],
            ?_⟩
    simp only [generate_tts, tryPhase, if_neg htext, hw, eq_self_iff_true, if_true,
      synthPhase, hres, cleanupTemps, Bool.false_eq_true, if_false, genericMsg, exnStr]
    have hsplit : ("‚ùå Ein unerwarteter Fehler ist aufgetreten: " : String)
        = "‚ùå " ++ "Ein unerwarteter Fehler ist aufgetreten" ++ ": " := by decide
    rw [hsplit]
    apply containsStr_appendL
    apply containsStr_appendR
    apply containsStr_appendR
    apply containsStr_appendR
    exact containsStr_self2 _ _
  · intro m hres
    refine ⟨by simp [generate_tts, tryPhase, if_neg htext, hw, synthPhase, hres],
            by simp [generate_tts, tryPhase, if_neg htext, hw, synthPhase, hres],
            ?_⟩
    simp only [generate_tts, tryPhase, if_neg htext, hw, eq_self_iff_true, if_true,
      synthPhase, hres, cleanupTemps, Bool.false_eq_true, if_false, genericMsg, exnStr]
    apply containsStr_appendL
    apply containsStr_appendR
    exact containsStr_self2 _ _

/-- Claim C4, witness: the spec scenario — engine exit code 1 with stderr
    "model not found" — lands in the dedicated handler with the exit code
    and the stderr text verbatim in the diagnostic text. -/
theorem C4_witness :
    (generate_tts ⟨ProcResult.ok "" "", ProcResult.exitError 1 "out" "model not found",
        true, "ts"⟩ [] "Hi" "Deutsch" (some "/r.wav")).handler
      = some Handler.calledProcess ∧
    (generate_tts ⟨ProcResult.ok "" "", ProcResult.exitError 1 "out" "model not found",
        true, "ts"⟩ [] "Hi" "Deutsch" (some "/r.wav")).audio = none ∧
    containsStr (generate_tts ⟨ProcResult.ok "" "", ProcResult.exitError 1 "out" "model not found",
        true, "ts"⟩ [] "Hi" "Deutsch" (some "/r.wav")).status
      ("Exit-Code: " ++ toString (1 : Int)) ∧
    containsStr (generate_tts ⟨ProcResult.ok "" "", ProcResult.exitError 1 "out" "model not found",
        true, "ts"⟩ [] "Hi" "Deutsch" (some "/r.wav")).status "out" ∧
    containsStr (generate_tts ⟨ProcResult.ok "" "", ProcResult.exitError 1 "out" "model not found",
        true, "ts"⟩ [] "Hi" "Deutsch" (some "/r.wav")).status "model not found" :=
  (C4_theorem _ _ _ _ _ (by decide) (by decide)).1 1 "out" "model not found" rfl

end Boysnoise
